import Mathlib

/-!
Shallow embedding of django-autotranslate (src/autotranslate/services.py and
src/autotranslate/config.py).

External provider calls (the googletrans client, the Google translate v2 REST
endpoint, the boto3 translate client) are modelled as function parameters
(`provider`); each backend's `translate_strings` additionally returns the log
of segment batches it submitted to the provider, so that claims about call
counts, batch sizes and ordering can be stated.  Python exceptions are
modelled with `Except` / explicit result inductives.
-/

set_option autoImplicit false

namespace Autotranslate

universe u v

/-- Error values raised by the service layer, mirroring the Python exception
classes and the arguments interpolated into their messages. -/
inductive PyError where
  /-- `NotImplementedError("{function}() must be overridden.")` -/
  | notImplementedError (function : String)
  /-- `ImproperlyConfigured("`{setting}` is not configured, it is required by `{service}`")` -/
  | improperlyConfigured (setting service : String)
  /-- `ImportError("`{service}` requires the `{package}` package")` -/
  | errImport (service package : String)
  /-- `IndexError` from `list.pop(0)` on an empty list. -/
  | indexError
deriving DecidableEq, Repr

/-- One element of the googletrans response: an object with a `.text`
attribute holding the translated string. -/
structure Translation (β : Type v) where
  text : β
deriving DecidableEq, Repr

/-- A Python generator over values of `β`, as produced by `translate_strings`.
`callsAtInvocation` records the provider batches submitted while the
`translate_strings` call itself executes (before any element is consumed);
each entry of `items` pairs the provider batches triggered by consuming that
element with the element itself. -/
structure LazySeq (κ : Type u) (β : Type v) where
  callsAtInvocation : List κ
  items : List (List κ × β)
deriving DecidableEq, Repr

namespace BaseTranslatorService

/-- `BaseTranslatorService.translate_string`: always raises
`NotImplementedError("translate_string() must be overridden.")`. -/
def translate_string {α : Type u} {β : Type v}
    (_text : α) (_target_language _source_language : String) : Except PyError β :=
  Except.error (PyError.notImplementedError "translate_string")

/-- `BaseTranslatorService.translate_strings`: always raises
`NotImplementedError("translate_strings() must be overridden.")`. -/
def translate_strings {α : Type u} {β : Type v}
    (_strings : List α) (_target_language _source_language : String) :
    Except PyError (LazySeq (List α) β) :=
  Except.error (PyError.notImplementedError "translate_strings")

end BaseTranslatorService

namespace GoogleTranslatorService

/-- `GoogleTranslatorService.translate_string`: one provider call on the single
text, projecting the `.text` attribute of the result. -/
def translate_string {α : Type u} {β : Type v} {ε : Type}
    (provider : α → String → String → Except ε (Translation β))
    (text : α) (target_language source_language : String) : Except ε β :=
  (provider text target_language source_language).map Translation.text

/-- `GoogleTranslatorService.translate_strings`: the body is not a generator
function, so `asyncio.run(self.service.translate(list(strings), ...))` runs
eagerly during the call itself; a provider failure escapes the call as an
error, and on success the returned generator expression
`(item.text for item in translations)` only projects the already-fetched
result objects, triggering no further provider call per element. -/
def translate_strings {α : Type u} {β : Type v} {ε : Type}
    (provider : List α → String → String → Except ε (List (Translation β)))
    (strings : List α) (target_language source_language : String) :
    Except ε (LazySeq (List α) β) :=
  (provider strings target_language source_language).map fun translations =>
    ⟨[strings], translations.map fun item => ([], item.text)⟩

end GoogleTranslatorService

namespace GoogleAPITranslatorService

/-- Truthiness of the `GOOGLE_TRANSLATE_KEY` setting value: `getattr` defaults
to `None` when the setting is absent, and `if not self.developer_key` also
rejects the empty string. -/
def pyFalsy : Option String → Bool
  | none => true
  | some s => s = ""

/-- Construction-time state of `GoogleAPITranslatorService`. -/
structure State where
  developer_key : String
  max_segments : Nat
deriving DecidableEq, Repr

/-- `GoogleAPITranslatorService.__init__`: first `build` is imported from
`googleapiclient.discovery` (failure is re-raised as an `ImportError` naming
the service and the `google-api-python-client` package), then the `GOOGLE_TRANSLATE_KEY`
setting is read and, if falsy, `ImproperlyConfigured` is raised naming the
setting and the service — before `build(...)` constructs the provider client.
The returned `Bool` records whether `build` was invoked. -/
def init (buildImportOk : Bool) (googleTranslateKey : Option String)
    (max_segments : Nat) : Except PyError State × Bool :=
  if buildImportOk then
    if pyFalsy googleTranslateKey then
      (Except.error
        (PyError.improperlyConfigured "GOOGLE_TRANSLATE_KEY" "GoogleAPITranslatorService"),
       false)
    else
      (Except.ok ⟨googleTranslateKey.getD "", max_segments⟩, true)
  else
    (Except.error
      (PyError.errImport "GoogleAPITranslatorService" "google-api-python-client"),
     false)

/-- `GoogleAPITranslatorService.translate_string`: one provider call with the
one-element batch `[text]`; `response.get("translations").pop(0)` raises
`IndexError` if the provider returned no translation. -/
def translate_string {α : Type u} {β : Type v}
    (provider : List α → String → String → List β)
    (text : α) (target_language source_language : String) : Except PyError β :=
  match provider [text] target_language source_language with
  | [] => Except.error PyError.indexError
  | b :: _ => Except.ok b

/-- Loop body of `GoogleAPITranslatorService.translate_strings`:
`while strings:` submit `strings[:max_segments]` to the provider, yield every
`translatedText` of the response, and continue with
`strings[max_segments:]`.  `fuel` bounds the number of iterations (the Python
loop terminates, in at most `strings.length` iterations, exactly when
`0 < max_segments`; with `max_segments = 0` it never terminates).  Returns the
list of submitted batches and the concatenated yielded translations. -/
def translate_strings_go {α : Type u} {β : Type v}
    (provider : List α → String → String → List β) (max_segments : Nat)
    (target_language source_language : String) :
    Nat → List α → List (List α) × List β
  | _, [] => ([], [])
  | 0, _ :: _ => ([], [])
  | fuel + 1, s :: rest =>
    let strings := s :: rest
    let batch := strings.take max_segments
    let response := provider batch target_language source_language
    let r := translate_strings_go provider max_segments target_language
      source_language fuel (strings.drop max_segments)
    (batch :: r.1, response ++ r.2)

/-- `GoogleAPITranslatorService.translate_strings`: chunked submission of the
input, batches of at most `max_segments` items (default 128), consecutive and
in order; the translations of each response are yielded in order before the
next chunk is submitted. -/
def translate_strings {α : Type u} {β : Type v}
    (provider : List α → String → String → List β) (max_segments : Nat)
    (strings : List α) (target_language source_language : String) :
    List (List α) × List β :=
  translate_strings_go provider max_segments target_language source_language
    strings.length strings

end GoogleAPITranslatorService

namespace AmazonTranslateTranslatorService

/-- `AmazonTranslateTranslatorService.__init__`: `import boto3` and construct
the client; `ImportError` is re-raised naming the service and the `boto3`
package.  The returned `Bool` records whether `boto3.client("translate")` was
invoked. -/
def init (boto3ImportOk : Bool) : Except PyError Unit × Bool :=
  if boto3ImportOk then (Except.ok (), true)
  else
    (Except.error (PyError.errImport "AmazonTranslateTranslatorService" "boto3"), false)

/-- `AmazonTranslateTranslatorService.translate_string`: one provider call
(`translate_text`) on the single text, returning `TranslatedText`. -/
def translate_string {α : Type u} {β : Type v}
    (provider : α → String → String → β)
    (text : α) (target_language source_language : String) : β :=
  provider text target_language source_language

/-- `AmazonTranslateTranslatorService.translate_strings`: `for text in
strings: yield self.translate_string(text, ...)` — one single-item call per
input item, in input order.  Returns the log of submitted single-item batches
and the yielded translations. -/
def translate_strings {α : Type u} {β : Type v}
    (provider : α → String → String → β)
    (strings : List α) (target_language source_language : String) :
    List (List α) × List β :=
  match strings with
  | [] => ([], [])
  | text :: rest =>
    let r := translate_strings provider rest target_language source_language
    ([text] :: r.1,
     translate_string provider text target_language source_language :: r.2)

end AmazonTranslateTranslatorService

/-! Embedding of config.py.  The Python class objects that can appear as the
`AUTOTRANSLATE_TRANSLATOR_SERVICE` setting value are modelled by a small
universe `Cls` with Python's `issubclass` relation computed from each class's
linearised list of superclasses. -/

/-- Python class objects relevant to the resolver: the abstract base, its
three concrete backends, and two unrelated classes (`object`, `int`). -/
inductive Cls where
  | object
  | pyInt
  | BaseTranslatorService
  | GoogleTranslatorService
  | GoogleAPITranslatorService
  | AmazonTranslateTranslatorService
deriving DecidableEq, Repr

/-- The superclasses of each class (the class itself included), following the
Python class hierarchy: every class subclasses `object`; the three backend
classes subclass `BaseTranslatorService`. -/
def superclasses : Cls → List Cls
  | Cls.object => [Cls.object]
  | Cls.pyInt => [Cls.pyInt, Cls.object]
  | Cls.BaseTranslatorService => [Cls.BaseTranslatorService, Cls.object]
  | Cls.GoogleTranslatorService =>
      [Cls.GoogleTranslatorService, Cls.BaseTranslatorService, Cls.object]
  | Cls.GoogleAPITranslatorService =>
      [Cls.GoogleAPITranslatorService, Cls.BaseTranslatorService, Cls.object]
  | Cls.AmazonTranslateTranslatorService =>
      [Cls.AmazonTranslateTranslatorService, Cls.BaseTranslatorService, Cls.object]

/-- Python's `issubclass(a, b)`. -/
def issubclass (a b : Cls) : Bool :=
  (superclasses a).contains b

/-- A type conforms to the translator capability contract when it subclasses
`BaseTranslatorService` (the check the resolver's own error message, "does not
subclass BaseTranslatorService", describes). -/
def conforming (c : Cls) : Bool :=
  issubclass c Cls.BaseTranslatorService

/-- A resolved Python object: `None` or a class. -/
inductive PyObj where
  | pynone
  | cls (c : Cls)
deriving DecidableEq, Repr

/-- A value of the `AUTOTRANSLATE_TRANSLATOR_SERVICE` setting: `None`, a
direct class reference, or a dotted-path string. -/
inductive PyVal where
  | pynone
  | cls (c : Cls)
  | str (s : String)
deriving DecidableEq, Repr

/-- `SERVICE_SETTING = "AUTOTRANSLATE_TRANSLATOR_SERVICE"`. -/
def SERVICE_SETTING : String := "AUTOTRANSLATE_TRANSLATOR_SERVICE"

/-- The `f"settings.{SERVICE_SETTING}"` string interpolated into both resolver
error messages. -/
def settingRef : String := "settings." ++ SERVICE_SETTING

/-- Outcome of `get_translator`: a constructed instance `translator()` of a
class, or one of the two `ImproperlyConfigured` errors with the values
interpolated into their messages. -/
inductive GetTranslatorResult where
  /-- `return translator()` — a new no-argument instance of class `c`. -/
  | instance (c : Cls)
  /-- `ImproperlyConfigured("Could not import the translator service
  '{translator}' specified in {setting}.")` -/
  | importFailure (translator : String) (setting : String)
  /-- `ImproperlyConfigured("The translator service '{translator}' specified
  in {setting} does not subclass BaseTranslatorService.")` -/
  | notSubclass (translator : PyObj) (setting : String)
deriving DecidableEq, Repr

/-- The validation-and-construction tail of `get_translator`:
`if translator is None or not issubclass(BaseTranslatorService, translator):
raise ImproperlyConfigured(...)` then `return translator()`.  Note the source
passes `BaseTranslatorService` as the FIRST argument of `issubclass`. -/
def checkAndInstantiate : PyObj → GetTranslatorResult
  | PyObj.pynone => GetTranslatorResult.notSubclass PyObj.pynone settingRef
  | PyObj.cls c =>
    if issubclass Cls.BaseTranslatorService c then GetTranslatorResult.instance c
    else GetTranslatorResult.notSubclass (PyObj.cls c) settingRef

/-- `get_translator()`: read the setting (defaulting to
`GoogleTranslatorService` when absent); when the value is a string, resolve
it with `import_string` (`resolve` models the import environment, `none`
standing for `ImportError`), raising `ImproperlyConfigured` on failure; then
validate and instantiate. -/
def get_translator (resolve : String → Option PyObj)
    (settingVal : Option PyVal) : GetTranslatorResult :=
  match settingVal.getD (PyVal.cls Cls.GoogleTranslatorService) with
  | PyVal.str s =>
    match resolve s with
    | none => GetTranslatorResult.importFailure s settingRef
    | some obj => checkAndInstantiate obj
  | PyVal.pynone => checkAndInstantiate PyObj.pynone
  | PyVal.cls c => checkAndInstantiate (PyObj.cls c)

/-- An import environment in which no dotted path resolves. -/
def emptyEnv : String → Option PyObj := fun _ => none

/-! ## Claims -/

/-- C1: the claim states that every conforming backend type given as the
setting value is instantiated and returned.  The code violates this:
`GoogleTranslatorService` conforms (it subclasses `BaseTranslatorService`),
yet because the source passes the arguments of `issubclass` in the wrong
order (`issubclass(BaseTranslatorService, translator)`), `get_translator`
raises `ImproperlyConfigured` instead of returning an instance. -/
theorem get_translator_rejects_conforming_backend :
    conforming Cls.GoogleTranslatorService = true ∧
    get_translator emptyEnv (some (PyVal.cls Cls.GoogleTranslatorService))
      = GetTranslatorResult.notSubclass (PyObj.cls Cls.GoogleTranslatorService) settingRef := by
  constructor
  · rfl
  · rfl

/-- C2: the claim states that every non-conforming type given as the setting
value is rejected with `ImproperlyConfigured`.  The code violates this: the
class `object` does not satisfy the translator capability contract, yet the
inverted `issubclass` check accepts it (`issubclass(BaseTranslatorService,
object)` holds) and `get_translator` returns an `object()` instance. -/
theorem get_translator_accepts_nonconforming_object :
    conforming Cls.object = false ∧
    get_translator emptyEnv (some (PyVal.cls Cls.object))
      = GetTranslatorResult.instance Cls.object := by
  constructor
  · rfl
  · rfl

/-- C7: the claim states that an absent setting selects the default backend
`GoogleTranslatorService` and returns an instance of it.  The code does
default to `GoogleTranslatorService`, but the inverted `issubclass` check then
rejects it, so `get_translator` raises `ImproperlyConfigured` instead of
returning the default instance. -/
theorem get_translator_default_rejected :
    get_translator emptyEnv none
      = GetTranslatorResult.notSubclass (PyObj.cls Cls.GoogleTranslatorService) settingRef := by
  rfl

/-- The unresolvable-path half of the resolver's error handling (supporting
fact for C2): a string setting whose path does not resolve raises
`ImproperlyConfigured` naming the path and the setting. -/
theorem get_translator_unresolvable_path (s : String) :
    get_translator emptyEnv (some (PyVal.str s))
      = GetTranslatorResult.importFailure s settingRef := by
  rfl

/-- One step of the ceiling-division recurrence behind the chunk count:
removing one chunk of `m` items from `N` remaining items lowers the number of
remaining chunks by exactly one. -/
theorem ceil_div_step (N m : Nat) (hm : 0 < m) (hN : 0 < N) :
    (N + m - 1) / m = (N - m + m - 1) / m + 1 := by
  rcases Nat.le_total N m with h | h
  · have h1 : N - m = 0 := by omega
    have h2 : (0 + m - 1) / m = 0 := Nat.div_eq_of_lt (by omega)
    rw [h1, h2]
    apply Nat.div_eq_of_lt_le
    · omega
    · omega
  · have h1 : N - m + m - 1 = N - 1 := by omega
    have h2 : N + m - 1 = N - 1 + m := by omega
    rw [h1, h2, Nat.add_div_right _ hm]

/-- Invariant of the chunking loop of
`GoogleAPITranslatorService.translate_strings`: with positive `max_segments`
and enough fuel, the loop submits exactly `ceil(N / max_segments)` batches,
each of at most `max_segments` items, whose concatenation is the input, and
(for a provider translating each item by `f`) yields the translations of the
input in order. -/
theorem gapi_go_spec {α : Type u} {β : Type v}
    (provider : List α → String → String → List β) (f : α → β)
    (max_segments : Nat) (hm : 0 < max_segments)
    (target_language source_language : String)
    (hp : ∀ b : List α, provider b target_language source_language = b.map f) :
    ∀ (fuel : Nat) (strings : List α), strings.length ≤ fuel →
      (GoogleAPITranslatorService.translate_strings_go provider max_segments
          target_language source_language fuel strings).1.length
        = (strings.length + max_segments - 1) / max_segments ∧
      (∀ c ∈ (GoogleAPITranslatorService.translate_strings_go provider max_segments
          target_language source_language fuel strings).1,
        c.length ≤ max_segments) ∧
      (GoogleAPITranslatorService.translate_strings_go provider max_segments
          target_language source_language fuel strings).1.flatten = strings ∧
      (GoogleAPITranslatorService.translate_strings_go provider max_segments
          target_language source_language fuel strings).2 = strings.map f := by
  intro fuel
  induction fuel with
  | zero =>
    intro strings hlen
    cases strings with
    | nil =>
      refine ⟨?_, ?_, rfl, rfl⟩
      · simp only [List.length_nil]
        exact (Nat.div_eq_of_lt (by omega)).symm
      · intro c hc
        simp [GoogleAPITranslatorService.translate_strings_go] at hc
    | cons s rest => simp at hlen
  | succ fuel ih =>
    intro strings hlen
    cases strings with
    | nil =>
      refine ⟨?_, ?_, rfl, rfl⟩
      · simp only [List.length_nil]
        exact (Nat.div_eq_of_lt (by omega)).symm
      · intro c hc
        simp [GoogleAPITranslatorService.translate_strings_go] at hc
    | cons s rest =>
      have hdrop : ((s :: rest).drop max_segments).length ≤ fuel := by
        rw [List.length_drop]
        simp at hlen ⊢
        omega
      obtain ⟨ihlen, ihbound, ihflat, ihout⟩ := ih _ hdrop
      refine ⟨?_, ?_, ?_, ?_⟩
      · simp only [GoogleAPITranslatorService.translate_strings_go,
          List.length_cons, ihlen, List.length_drop]
        exact (ceil_div_step (rest.length + 1) max_segments hm (by omega)).symm
      · simp only [GoogleAPITranslatorService.translate_strings_go]
        intro c hc
        rcases List.mem_cons.mp hc with hc | hc
        · rw [hc, List.length_take]
          omega
        · exact ihbound c hc
      · simp only [GoogleAPITranslatorService.translate_strings_go,
          List.flatten_cons]
        rw [ihflat, List.take_append_drop]
      · simp only [GoogleAPITranslatorService.translate_strings_go]
        rw [ihout, hp, ← List.map_append, List.take_append_drop]

/-- C3: `GoogleAPITranslatorService.translate_strings` with `N` input items
and maximum segment count `max_segments > 0` submits exactly
`ceil(N / max_segments)` provider batches, each of at most `max_segments`
items, which are consecutive slices of the input in order (their
concatenation is the input); and, for a provider that translates each
submitted item by `f` in request order, the concatenation of the per-call
results is the in-order translation of the whole input. -/
theorem gapi_translate_strings_chunking {α : Type u} {β : Type v}
    (provider : List α → String → String → List β) (f : α → β)
    (max_segments : Nat) (hm : 0 < max_segments)
    (strings : List α) (target_language source_language : String)
    (hp : ∀ b : List α, provider b target_language source_language = b.map f) :
    (GoogleAPITranslatorService.translate_strings provider max_segments strings
        target_language source_language).1.length
      = (strings.length + max_segments - 1) / max_segments ∧
    (∀ c ∈ (GoogleAPITranslatorService.translate_strings provider max_segments
        strings target_language source_language).1,
      c.length ≤ max_segments) ∧
    (GoogleAPITranslatorService.translate_strings provider max_segments strings
        target_language source_language).1.flatten = strings ∧
    (GoogleAPITranslatorService.translate_strings provider max_segments strings
        target_language source_language).2 = strings.map f :=
  gapi_go_spec provider f max_segments hm target_language source_language hp
    strings.length strings (Nat.le_refl _)

set_option maxRecDepth 4000 in
/-- Witness for C3 at the claim's example: `N = 300`, `max_segments = 128`
gives exactly 3 provider calls of sizes 128, 128 and 44. -/
theorem gapi_translate_strings_chunking_witness :
    (0 : Nat) < 128 ∧
    (∀ b : List Nat,
      (fun (b : List Nat) (_ _ : String) => b.map Nat.succ) b "de" "en"
        = b.map Nat.succ) ∧
    (GoogleAPITranslatorService.translate_strings
        (fun (b : List Nat) (_ _ : String) => b.map Nat.succ) 128
        (List.replicate 300 0) "de" "en").1.map List.length = [128, 128, 44] ∧
    ((GoogleAPITranslatorService.translate_strings
        (fun (b : List Nat) (_ _ : String) => b.map Nat.succ) 128
        (List.replicate 300 0) "de" "en").1.length
      = ((List.replicate 300 (0 : Nat)).length + 128 - 1) / 128 ∧
    (∀ c ∈ (GoogleAPITranslatorService.translate_strings
        (fun (b : List Nat) (_ _ : String) => b.map Nat.succ) 128
        (List.replicate 300 0) "de" "en").1,
      c.length ≤ 128) ∧
    (GoogleAPITranslatorService.translate_strings
        (fun (b : List Nat) (_ _ : String) => b.map Nat.succ) 128
        (List.replicate 300 0) "de" "en").1.flatten = List.replicate 300 0 ∧
    (GoogleAPITranslatorService.translate_strings
        (fun (b : List Nat) (_ _ : String) => b.map Nat.succ) 128
        (List.replicate 300 0) "de" "en").2
      = (List.replicate 300 (0 : Nat)).map Nat.succ) :=
  ⟨by decide, fun _ => rfl, by decide,
    gapi_translate_strings_chunking
      (fun (b : List Nat) (_ _ : String) => b.map Nat.succ) Nat.succ 128
      (by decide) (List.replicate 300 0) "de" "en" (fun _ => rfl)⟩

/-- C5: `AmazonTranslateTranslatorService.translate_strings` with `N` input
items makes exactly `N` single-item provider calls — the call log is the
input list itself, one singleton batch per item in input order — and yields,
in the same order, the result of `translate_string` on each item. -/
theorem amazon_translate_strings_per_item {α : Type u} {β : Type v}
    (provider : α → String → String → β) (strings : List α)
    (target_language source_language : String) :
    (AmazonTranslateTranslatorService.translate_strings provider strings
        target_language source_language).1
      = strings.map (fun s => [s]) ∧
    (AmazonTranslateTranslatorService.translate_strings provider strings
        target_language source_language).1.length = strings.length ∧
    (AmazonTranslateTranslatorService.translate_strings provider strings
        target_language source_language).2
      = strings.map (fun s =>
          AmazonTranslateTranslatorService.translate_string provider s
            target_language source_language) := by
  refine ⟨?_, ?_, ?_⟩ <;>
    induction strings with
    | nil => rfl
    | cons s rest ih =>
      simp [AmazonTranslateTranslatorService.translate_strings, ih]

/-- C6: constructing `GoogleAPITranslatorService` with the
`GOOGLE_TRANSLATE_KEY` setting absent or falsy raises `ImproperlyConfigured`
naming the setting and the service, and `build(...)` (the provider client
construction, hence any network activity) is never invoked. -/
theorem gapi_init_missing_key_fails_before_build
    (googleTranslateKey : Option String) (max_segments : Nat)
    (hfalsy : GoogleAPITranslatorService.pyFalsy googleTranslateKey = true) :
    GoogleAPITranslatorService.init true googleTranslateKey max_segments
      = (Except.error (PyError.improperlyConfigured "GOOGLE_TRANSLATE_KEY"
          "GoogleAPITranslatorService"), false) := by
  simp [GoogleAPITranslatorService.init, hfalsy]

/-- Witness for C6 at the concrete input: setting absent (`None` default),
default `max_segments = 128`. -/
theorem gapi_init_missing_key_fails_before_build_witness :
    GoogleAPITranslatorService.pyFalsy none = true ∧
    GoogleAPITranslatorService.init true none 128
      = (Except.error (PyError.improperlyConfigured "GOOGLE_TRANSLATE_KEY"
          "GoogleAPITranslatorService"), false) :=
  ⟨by decide, gapi_init_missing_key_fails_before_build none 128 (by decide)⟩

/-- C9: constructing `AmazonTranslateTranslatorService` when `boto3` cannot
be imported raises an `ImportError` naming the service and the `boto3` package,
and the provider client is never constructed. -/
theorem amazon_init_missing_boto3 :
    AmazonTranslateTranslatorService.init false
      = (Except.error (PyError.errImport "AmazonTranslateTranslatorService" "boto3"),
         false) := by
  rfl

/-- C4: for every input sequence `S` and every concrete backend, under the
precondition that each provider call returns one translation per submitted
item in request order (the per-chunk provider translating items by `fapi`,
the batched googletrans provider by `ftr`, the per-item Amazon provider by
`famz`), `translate_strings` yields exactly `S.length` translated strings,
positionally aligned with `S`: the output is the in-order image of `S` under
the per-item translation. -/
theorem translate_strings_length_and_order {α : Type u} {β : Type v}
    (ftr : α → Translation β) (fapi famz : α → β)
    (max_segments : Nat) (hm : 0 < max_segments)
    (S : List α) (target_language source_language : String) :
    (GoogleTranslatorService.translate_strings
        (fun b _ _ => (Except.ok (b.map ftr) : Except PyError (List (Translation β))))
        S target_language source_language
      = Except.ok ⟨[S], S.map (fun s => (([] : List (List α)), (ftr s).text))⟩ ∧
     (S.map (fun s => (([] : List (List α)), (ftr s).text))).length = S.length) ∧
    ((GoogleAPITranslatorService.translate_strings
        (fun b _ _ => b.map fapi) max_segments S target_language source_language).2
      = S.map fapi ∧
     (GoogleAPITranslatorService.translate_strings
        (fun b _ _ => b.map fapi) max_segments S target_language source_language).2.length
      = S.length) ∧
    ((AmazonTranslateTranslatorService.translate_strings
        (fun s _ _ => famz s) S target_language source_language).2
      = S.map famz ∧
     (AmazonTranslateTranslatorService.translate_strings
        (fun s _ _ => famz s) S target_language source_language).2.length
      = S.length) := by
  have hamz : (AmazonTranslateTranslatorService.translate_strings
      (fun s _ _ => famz s) S target_language source_language).2 = S.map famz := by
    induction S with
    | nil => rfl
    | cons s rest ih =>
      simp [AmazonTranslateTranslatorService.translate_strings,
        AmazonTranslateTranslatorService.translate_string, ih]
  have hapi : (GoogleAPITranslatorService.translate_strings
      (fun b _ _ => b.map fapi) max_segments S target_language source_language).2
      = S.map fapi := by
    have h := (gapi_go_spec (fun b _ _ => b.map fapi) fapi max_segments hm
      target_language source_language (fun _ => rfl) S.length S (Nat.le_refl _)).2.2.2
    simpa [GoogleAPITranslatorService.translate_strings] using h
  refine ⟨⟨?_, List.length_map _ _⟩, ⟨hapi, ?_⟩, hamz, ?_⟩
  · simp [GoogleTranslatorService.translate_strings, Except.map, List.map_map]
  · rw [hapi, List.length_map]
  · rw [hamz, List.length_map]

/-- Witness for C4 at concrete inputs: `S = [0, 1, 2]`, `max_segments = 2`,
every provider translating an item `n` to `n + 1`. -/
theorem translate_strings_length_and_order_witness :
    (0 : Nat) < 2 ∧
    (GoogleTranslatorService.translate_strings
        (fun b _ _ => (Except.ok (b.map (fun n => Translation.mk (n + 1))) :
          Except PyError (List (Translation Nat)))) [0, 1, 2] "de" "en"
      = Except.ok ⟨[[0, 1, 2]],
          [0, 1, 2].map (fun s => (([] : List (List Nat)), s + 1))⟩ ∧
     ([0, 1, 2].map (fun s => (([] : List (List Nat)), s + 1))).length = 3) ∧
    ((GoogleAPITranslatorService.translate_strings
        (fun (b : List Nat) (_ _ : String) => b.map (fun n => n + 1)) 2
        [0, 1, 2] "de" "en").2 = [1, 2, 3] ∧
     (GoogleAPITranslatorService.translate_strings
        (fun (b : List Nat) (_ _ : String) => b.map (fun n => n + 1)) 2
        [0, 1, 2] "de" "en").2.length = 3) ∧
    ((AmazonTranslateTranslatorService.translate_strings
        (fun (s : Nat) (_ _ : String) => s + 1) [0, 1, 2] "de" "en").2
      = [1, 2, 3] ∧
     (AmazonTranslateTranslatorService.translate_strings
        (fun (s : Nat) (_ _ : String) => s + 1) [0, 1, 2] "de" "en").2.length
      = 3) := by
  have h := translate_strings_length_and_order
    (fun n : Nat => Translation.mk (n + 1)) (fun n => n + 1) (fun n => n + 1)
    2 (by decide) [0, 1, 2] "de" "en"
  exact ⟨by decide, h.1, ⟨h.2.1.1, h.2.1.2⟩, h.2.2.1, h.2.2.2⟩

/-- C8: both methods of `BaseTranslatorService` raise `NotImplementedError`
naming the unimplemented method; a concrete backend overrides them, so any
error escaping its `translate_strings` is the provider's own error passed
through, never the base class's `NotImplementedError`. -/
theorem base_methods_not_implemented {α : Type u} {β : Type v}
    (text : α) (strings : List α) (target_language source_language : String)
    (provider : List α → String → String → Except PyError (List (Translation β)))
    (e : PyError)
    (hprov : GoogleTranslatorService.translate_strings provider strings
        target_language source_language = Except.error e) :
    BaseTranslatorService.translate_string text target_language source_language
      = (Except.error (PyError.notImplementedError "translate_string") :
          Except PyError β) ∧
    BaseTranslatorService.translate_strings strings target_language source_language
      = (Except.error (PyError.notImplementedError "translate_strings") :
          Except PyError (LazySeq (List α) β)) ∧
    provider strings target_language source_language = Except.error e := by
  refine ⟨rfl, rfl, ?_⟩
  cases h : provider strings target_language source_language with
  | ok translations =>
    simp [GoogleTranslatorService.translate_strings, h, Except.map] at hprov
  | error e2 =>
    simp [GoogleTranslatorService.translate_strings, h, Except.map] at hprov
    simp [hprov]

/-- Witness for C8 at concrete inputs: a provider that raises `IndexError`;
the error passed through by the concrete backend is that `IndexError`. -/
theorem base_methods_not_implemented_witness :
    BaseTranslatorService.translate_string (0 : Nat) "de" "en"
      = (Except.error (PyError.notImplementedError "translate_string") :
          Except PyError String) ∧
    BaseTranslatorService.translate_strings [(0 : Nat)] "de" "en"
      = (Except.error (PyError.notImplementedError "translate_strings") :
          Except PyError (LazySeq (List Nat) String)) ∧
    (fun (_ : List Nat) (_ _ : String) =>
        (Except.error PyError.indexError : Except PyError (List (Translation String))))
      [(0 : Nat)] "de" "en" = Except.error PyError.indexError :=
  base_methods_not_implemented 0 [0] "de" "en"
    (fun _ _ _ => Except.error PyError.indexError) PyError.indexError rfl

/-- C10: `GoogleTranslatorService.translate_strings` performs its single
batched provider request eagerly during the call: on success the returned
generator records the one batch `[strings]` as submitted at invocation time
and every element carries an empty per-element call list (consumption only
projects the already-fetched `.text` fields); and a provider failure escapes
the `translate_strings` call itself as that error. -/
theorem google_translate_strings_eager {α : Type u} {β : Type v} {ε : Type}
    (provider : List α → String → String → Except ε (List (Translation β)))
    (strings : List α) (target_language source_language : String)
    (translations : List (Translation β)) (e0 : ε)
    (hok : provider strings target_language source_language
        = Except.ok translations) :
    GoogleTranslatorService.translate_strings provider strings
        target_language source_language
      = Except.ok ⟨[strings], translations.map (fun item => ([], item.text))⟩ ∧
    GoogleTranslatorService.translate_strings (fun _ _ _ => Except.error e0)
        strings target_language source_language
      = (Except.error e0 : Except ε (LazySeq (List α) β)) := by
  constructor
  · simp [GoogleTranslatorService.translate_strings, hok, Except.map]
  · rfl

/-- Witness for C10 at concrete inputs. -/
theorem google_translate_strings_eager_witness :
    (fun (_ : List Nat) (_ _ : String) =>
        (Except.ok [Translation.mk "hallo"] :
          Except PyError (List (Translation String)))) [(0 : Nat)] "de" "en"
      = Except.ok [Translation.mk "hallo"] ∧
    (GoogleTranslatorService.translate_strings
        (fun (_ : List Nat) (_ _ : String) =>
          (Except.ok [Translation.mk "hallo"] :
            Except PyError (List (Translation String)))) [(0 : Nat)] "de" "en"
      = Except.ok ⟨[[0]], [([], "hallo")]⟩ ∧
    GoogleTranslatorService.translate_strings
        (fun _ _ _ => Except.error PyError.indexError) [(0 : Nat)] "de" "en"
      = (Except.error PyError.indexError :
          Except PyError (LazySeq (List Nat) String))) :=
  ⟨rfl, google_translate_strings_eager
    (fun _ _ _ => Except.ok [Translation.mk "hallo"]) [0] "de" "en"
    [Translation.mk "hallo"] PyError.indexError rfl⟩

end Autotranslate
